import Mathlib

/-!
Shallow embedding of the receipt-processing pipeline in `lambda.py`
(Automated-Receipt-Processing-System).

The Python module transforms a Textract `analyze_expense` response into a
receipt record with defaulting, persists it to DynamoDB, and sends an SES
notification.  Absent dictionary keys are modelled as `Option`; the
`dict.get(k, default)` idiom becomes `Option.getD`.  Values that the code
obtains from its environment (the uuid, `datetime.now().strftime`, bucket,
key, timestamps) are injected as parameters, since the transformation is
otherwise pure.
-/

namespace ReceiptPipeline

/-- The `Type` sub-dictionary of a Textract expense field: it may or may not
carry a `Text` key. -/
structure TypeInfo where
  text : Option String
deriving DecidableEq, Repr

/-- The `ValueDetection` sub-dictionary of a Textract expense field. -/
structure DetectedValue where
  text : Option String
deriving DecidableEq, Repr

/-- One raw expense field: both sub-dictionaries may be absent, mirroring
`field.get(..., \x7b\x7d)` in the source. -/
structure ExpenseField where
  typ : Option TypeInfo
  valueDetection : Option DetectedValue
deriving DecidableEq, Repr

/-- One Textract line item, with its possibly absent
`LineItemExpenseFields` list. -/
structure LineItem where
  lineItemExpenseFields : Option (List ExpenseField)
deriving DecidableEq, Repr

/-- One Textract line-item group, with its possibly absent `LineItems`
list (the code tests membership before iterating). -/
structure LineItemGroup where
  lineItems : Option (List LineItem)
deriving DecidableEq, Repr

/-- One Textract expense document: both section lists may be absent. -/
structure ExpenseDocument where
  summaryFields : Option (List ExpenseField)
  lineItemGroups : Option (List LineItemGroup)
deriving DecidableEq, Repr

/-- The analyze_expense response, reduced to the part the code reads:
the possibly absent `ExpenseDocuments` list. -/
structure TextractResponse where
  expenseDocuments : Option (List ExpenseDocument)
deriving DecidableEq, Repr

/-- Mirrors `field.get(\x27Type\x27, ...).get(\x27Text\x27, ...)` giving the
empty string when either level is missing. -/
def fieldTypeText (f : ExpenseField) : String :=
  ((f.typ.getD ⟨none⟩).text).getD ""

/-- Mirrors the `ValueDetection`/`Text` lookup with empty-string default. -/
def fieldValueText (f : ExpenseField) : String :=
  ((f.valueDetection.getD ⟨none⟩).text).getD ""

/-- The `item` dictionary built per line item: each key is present only if a
field of the matching type label was seen. -/
structure ItemDict where
  name : Option String
  price : Option String
  quantity : Option String
deriving DecidableEq, Repr

/-- The `receipt_data` dictionary produced by the extraction stage.  All six
keys are always present (the code initializes them up front). -/
structure ReceiptData where
  receipt_id : String
  date : String
  vendor : String
  total : String
  items : List ItemDict
  s3_path : String
deriving DecidableEq, Repr

/-- The initial `receipt_data` dictionary of `process_receipt_with_textract`:
defaults before any Textract field is examined.  `rid` stands for the fresh
uuid, `today` for `datetime.now().strftime` with the year-month-day format. -/
def initialReceiptData (rid today bucket key : String) : ReceiptData :=
  { receipt_id := rid
    date := today
    vendor := "Unknown"
    total := "0.00"
    items := []
    s3_path := "s3://" ++ bucket ++ "/" ++ key }

/-- One step of the summary-field loop: dispatch on the type label and
overwrite the matching key.  The try/except around the date assignment in the
source is a no-op (a dictionary assignment cannot raise), so the assignment is
embedded directly. -/
def processSummaryField (r : ReceiptData) (f : ExpenseField) : ReceiptData :=
  let ft := fieldTypeText f
  let v := fieldValueText f
  if ft = "TOTAL" then { r with total := v }
  else if ft = "INVOICE_RECEIPT_DATE" then { r with date := v }
  else if ft = "VENDOR_NAME" then { r with vendor := v }
  else r

/-- One step of the line-item field loop: dispatch on the type label and set
the matching key of the item dictionary. -/
def processLineItemField (it : ItemDict) (f : ExpenseField) : ItemDict :=
  let ft := fieldTypeText f
  let v := fieldValueText f
  if ft = "ITEM" then { it with name := some v }
  else if ft = "PRICE" then { it with price := some v }
  else if ft = "QUANTITY" then { it with quantity := some v }
  else it

/-- Processing of one line item: fold its fields over the empty dictionary,
then keep the result only when the `name` key was set. -/
def processLineItem (li : LineItem) : Option ItemDict :=
  let item := (li.lineItemExpenseFields.getD []).foldl processLineItemField
    { name := none, price := none, quantity := none }
  if item.name.isSome then some item else none

/-- Items contributed by one line-item group: nothing when the `LineItems`
key is absent, otherwise the kept line items in order. -/
def itemsOfGroup (g : LineItemGroup) : List ItemDict :=
  match g.lineItems with
  | some lis => lis.filterMap processLineItem
  | none => []

/-- Items contributed by the whole `LineItemGroups` list, in order. -/
def itemsOfGroups (gs : List LineItemGroup) : List ItemDict :=
  gs.flatMap itemsOfGroup

/-- The summary-field section of the extraction: folds the summary fields of
the document over the receipt when the `SummaryFields` key is present. -/
def applySummary (r : ReceiptData) (doc : ExpenseDocument) : ReceiptData :=
  match doc.summaryFields with
  | some fs => fs.foldl processSummaryField r
  | none => r

/-- The line-item section of the extraction: appends the collected items when
the `LineItemGroups` key is present. -/
def applyLineItems (r : ReceiptData) (doc : ExpenseDocument) : ReceiptData :=
  match doc.lineItemGroups with
  | some gs => { r with items := r.items ++ itemsOfGroups gs }
  | none => r

/-- The pure tail of `process_receipt_with_textract`: everything after the
Textract call.  The code uses only the first expense document, and only when
the `ExpenseDocuments` key is present with a non-empty (truthy) list. -/
def process_receipt_with_textract (rid today bucket key : String)
    (resp : TextractResponse) : ReceiptData :=
  let r0 := initialReceiptData rid today bucket key
  match resp.expenseDocuments with
  | some (doc :: _) => applyLineItems (applySummary r0 doc) doc
  | _ => r0

/-- The same extraction with the partial operations of the source made
explicit: the subscript `response[ExpenseDocuments][0]` is modelled as
`List.head?`, guarded as in the code by the membership test and the
truthiness test.  A `none` result would correspond to a raised exception. -/
def process_receipt_checked (rid today bucket key : String)
    (resp : TextractResponse) : Option ReceiptData :=
  let r0 := initialReceiptData rid today bucket key
  match resp.expenseDocuments with
  | some docs =>
      if docs.isEmpty then some r0
      else
        match docs.head? with
        | some doc => some (applyLineItems (applySummary r0 doc) doc)
        | none => none
  | none => some r0

/-- The per-item conversion of `store_receipt_in_dynamodb`: every key is
forced present, with the write-side defaults. -/
def toDbItem (it : ItemDict) : ItemDict :=
  { name := some (it.name.getD "Unknown Item")
    price := some (it.price.getD "0.00")
    quantity := some (it.quantity.getD "1") }

/-- Mirrors the `items_for_db` accumulation loop. -/
def items_for_db (items : List ItemDict) : List ItemDict :=
  items.map toDbItem

/-- The `db_item` dictionary inserted into DynamoDB. -/
structure DbRecord where
  receipt_id : String
  date : String
  vendor : String
  total : String
  items : List ItemDict
  s3_path : String
  processed_timestamp : String
deriving DecidableEq, Repr

/-- Builds the `db_item` written by `store_receipt_in_dynamodb`; `ts` injects
`datetime.now().isoformat()`. -/
def db_item_of (r : ReceiptData) (ts : String) : DbRecord :=
  { receipt_id := r.receipt_id
    date := r.date
    vendor := r.vendor
    total := r.total
    items := items_for_db r.items
    s3_path := r.s3_path
    processed_timestamp := ts }

/-- Display name used by the email loop: `item.get` with default. -/
def displayName (it : ItemDict) : String :=
  it.name.getD "Unknown Item"

/-- Display price used by the email loop: `item.get` with default `N/A`. -/
def displayPrice (it : ItemDict) : String :=
  it.price.getD "N/A"

/-- Display quantity used by the email loop: `item.get` with default `1`. -/
def displayQuantity (it : ItemDict) : String :=
  it.quantity.getD "1"

/-- One `\x3cli\x3e` bullet of the email body. -/
def itemLine (it : ItemDict) : String :=
  "<li>" ++ displayName it ++ " - $" ++ displayPrice it ++ " x "
    ++ displayQuantity it ++ "</li>"

/-- The `items_html` accumulation of `send_email_notification`, including the
placeholder substitution when the accumulated string is empty (falsy). -/
def items_html (items : List ItemDict) : String :=
  let s := items.foldl (fun acc it => acc ++ itemLine it) ""
  if s = "" then "<li>No items detected</li>" else s

/-- The part of the email body before `items_html` (markup whitespace
condensed). -/
def bodyHeader (r : ReceiptData) : String :=
  "<html><body><h2>Receipt Processing Notification</h2>"
    ++ "<p><strong>Receipt ID:</strong> " ++ r.receipt_id ++ "</p>"
    ++ "<p><strong>Vendor:</strong> " ++ r.vendor ++ "</p>"
    ++ "<p><strong>Date:</strong> " ++ r.date ++ "</p>"
    ++ "<p><strong>Total Amount:</strong> $" ++ r.total ++ "</p>"
    ++ "<p><strong>S3 Location:</strong> " ++ r.s3_path ++ "</p>"
    ++ "<h3>Items:</h3><ul>"

/-- The part of the email body after `items_html`. -/
def bodyFooter : String :=
  "</ul><p>The receipt has been processed and stored in DynamoDB.</p>"
    ++ "</body></html>"

/-- The rendered `html_body` of `send_email_notification`. -/
def html_body (r : ReceiptData) : String :=
  bodyHeader r ++ items_html r.items ++ bodyFooter

/-- Outcomes of the external collaborators, injected so the control flow of
`lambda_handler` can be studied: each `Except.error` stands for a raised
exception in the corresponding boto3 call. -/
structure Collaborators where
  headObject : Except String Unit
  analyzeExpense : Except String TextractResponse
  putItem : Except String Unit
  sendEmail : Except String Unit

/-- The `send_email_notification` step: its try/except swallows any raised
exception, so it always returns; the Bool records whether the send
succeeded.  Its result is discarded by the handler, as in the source. -/
def send_email_notification (c : Collaborators) : Bool :=
  match c.sendEmail with
  | .ok _ => true
  | .error _ => false

/-- What the run reported: the statusCode of the returned body, and whether
the notification step was reached at all. -/
structure HandlerOutcome where
  statusCode : Nat
  emailAttempted : Bool
deriving DecidableEq, Repr

/-- Control flow of `lambda_handler`: any exception out of the object check,
the Textract call, or the DynamoDB write reaches the top-level except and
yields statusCode 500; the notification step cannot raise, so a run that
gets past the write always returns 200. -/
def lambda_handler (c : Collaborators) : HandlerOutcome :=
  match c.headObject with
  | .error _ => { statusCode := 500, emailAttempted := false }
  | .ok _ =>
    match c.analyzeExpense with
    | .error _ => { statusCode := 500, emailAttempted := false }
    | .ok _ =>
      match c.putItem with
      | .error _ => { statusCode := 500, emailAttempted := false }
      | .ok _ =>
        let _delivered := send_email_notification c
        { statusCode := 200, emailAttempted := true }

/-- Boolean form of the type-label comparison performed by the loops. -/
def hasType (t : String) (f : ExpenseField) : Bool :=
  fieldTypeText f == t

lemma mem_of_getLast_eq_some {α : Type} {l : List α} {a : α}
    (h : l.getLast? = some a) : a ∈ l := by
  have hne : l ≠ [] := by rintro rfl; simp at h
  have hg := List.getLast?_eq_getLast_of_ne_nil hne
  rw [hg] at h
  injection h with h2
  rw [← h2]
  exact List.getLast_mem hne

lemma processSummaryField_total (r : ReceiptData) (f : ExpenseField) :
    (processSummaryField r f).total =
      if fieldTypeText f = "TOTAL" then fieldValueText f else r.total := by
  unfold processSummaryField
  by_cases h1 : fieldTypeText f = "TOTAL" <;>
    by_cases h2 : fieldTypeText f = "INVOICE_RECEIPT_DATE" <;>
      by_cases h3 : fieldTypeText f = "VENDOR_NAME" <;> simp_all

lemma processSummaryField_date (r : ReceiptData) (f : ExpenseField) :
    (processSummaryField r f).date =
      if fieldTypeText f = "INVOICE_RECEIPT_DATE" then fieldValueText f
      else r.date := by
  unfold processSummaryField
  by_cases h1 : fieldTypeText f = "TOTAL" <;>
    by_cases h2 : fieldTypeText f = "INVOICE_RECEIPT_DATE" <;>
      by_cases h3 : fieldTypeText f = "VENDOR_NAME" <;> simp_all

lemma processSummaryField_vendor (r : ReceiptData) (f : ExpenseField) :
    (processSummaryField r f).vendor =
      if fieldTypeText f = "VENDOR_NAME" then fieldValueText f
      else r.vendor := by
  unfold processSummaryField
  by_cases h1 : fieldTypeText f = "TOTAL" <;>
    by_cases h2 : fieldTypeText f = "INVOICE_RECEIPT_DATE" <;>
      by_cases h3 : fieldTypeText f = "VENDOR_NAME" <;> simp_all

lemma foldl_summary_total (fs : List ExpenseField) (r : ReceiptData) :
    (fs.foldl processSummaryField r).total =
      match (fs.filter (hasType "TOTAL")).getLast? with
      | some f => fieldValueText f
      | none => r.total := by
  induction fs using List.reverseRecOn with
  | nil => simp
  | append_singleton xs x ih =>
    rw [List.foldl_append, List.foldl_cons, List.foldl_nil,
      List.filter_append, processSummaryField_total]
    by_cases hx : fieldTypeText x = "TOTAL"
    · have hb : hasType "TOTAL" x = true := by simp [hasType, hx]
      simp [hx, hb, List.filter_cons, List.getLast?_concat]
    · have hb : hasType "TOTAL" x = false := by simp [hasType, hx]
      simp [hx, hb, List.filter_cons, ih]

lemma foldl_summary_date (fs : List ExpenseField) (r : ReceiptData) :
    (fs.foldl processSummaryField r).date =
      match (fs.filter (hasType "INVOICE_RECEIPT_DATE")).getLast? with
      | some f => fieldValueText f
      | none => r.date := by
  induction fs using List.reverseRecOn with
  | nil => simp
  | append_singleton xs x ih =>
    rw [List.foldl_append, List.foldl_cons, List.foldl_nil,
      List.filter_append, processSummaryField_date]
    by_cases hx : fieldTypeText x = "INVOICE_RECEIPT_DATE"
    · have hb : hasType "INVOICE_RECEIPT_DATE" x = true := by simp [hasType, hx]
      simp [hx, hb, List.filter_cons, List.getLast?_concat]
    · have hb : hasType "INVOICE_RECEIPT_DATE" x = false := by simp [hasType, hx]
      simp [hx, hb, List.filter_cons, ih]

lemma foldl_summary_vendor (fs : List ExpenseField) (r : ReceiptData) :
    (fs.foldl processSummaryField r).vendor =
      match (fs.filter (hasType "VENDOR_NAME")).getLast? with
      | some f => fieldValueText f
      | none => r.vendor := by
  induction fs using List.reverseRecOn with
  | nil => simp
  | append_singleton xs x ih =>
    rw [List.foldl_append, List.foldl_cons, List.foldl_nil,
      List.filter_append, processSummaryField_vendor]
    by_cases hx : fieldTypeText x = "VENDOR_NAME"
    · have hb : hasType "VENDOR_NAME" x = true := by simp [hasType, hx]
      simp [hx, hb, List.filter_cons, List.getLast?_concat]
    · have hb : hasType "VENDOR_NAME" x = false := by simp [hasType, hx]
      simp [hx, hb, List.filter_cons, ih]

lemma applyLineItems_preserves (r : ReceiptData) (doc : ExpenseDocument) :
    (applyLineItems r doc).total = r.total ∧
    (applyLineItems r doc).date = r.date ∧
    (applyLineItems r doc).vendor = r.vendor ∧
    (applyLineItems r doc).receipt_id = r.receipt_id := by
  rcases hg : doc.lineItemGroups with _ | gs <;> simp [applyLineItems, hg]

lemma applySummary_summary (r : ReceiptData) (doc : ExpenseDocument)
    (fs : List ExpenseField) (h : doc.summaryFields = some fs) :
    applySummary r doc = fs.foldl processSummaryField r := by
  simp [applySummary, h]

lemma processLineItemField_name (it : ItemDict) (f : ExpenseField) :
    (processLineItemField it f).name =
      if fieldTypeText f = "ITEM" then some (fieldValueText f) else it.name := by
  unfold processLineItemField
  by_cases h1 : fieldTypeText f = "ITEM" <;>
    by_cases h2 : fieldTypeText f = "PRICE" <;>
      by_cases h3 : fieldTypeText f = "QUANTITY" <;> simp_all

lemma foldl_item_name_isSome (fs : List ExpenseField) :
    ∀ it : ItemDict,
      ((fs.foldl processLineItemField it).name).isSome = true ↔
        (it.name.isSome = true ∨ ∃ f ∈ fs, fieldTypeText f = "ITEM") := by
  induction fs with
  | nil => intro it; simp
  | cons f rest ih =>
    intro it
    rw [List.foldl_cons, ih]
    by_cases hf : fieldTypeText f = "ITEM"
    · constructor
      · intro _; exact Or.inr ⟨f, by simp, hf⟩
      · intro _; left; simp [processLineItemField_name, hf]
    · simp only [processLineItemField_name, hf, if_false, List.mem_cons]
      constructor
      · rintro (h | ⟨g, hg, hgt⟩)
        · exact Or.inl h
        · exact Or.inr ⟨g, Or.inr hg, hgt⟩
      · rintro (h | ⟨g, (rfl | hg), hgt⟩)
        · exact Or.inl h
        · exact absurd hgt hf
        · exact Or.inr ⟨g, hg, hgt⟩

lemma processLineItem_isSome_iff (li : LineItem) :
    (processLineItem li).isSome = true ↔
      ∃ f ∈ li.lineItemExpenseFields.getD [], fieldTypeText f = "ITEM" := by
  have h := foldl_item_name_isSome (li.lineItemExpenseFields.getD [])
    { name := none, price := none, quantity := none }
  simp only [Option.isSome_none, Bool.false_eq_true, false_or] at h
  unfold processLineItem
  by_cases hb : ((li.lineItemExpenseFields.getD []).foldl processLineItemField
      { name := none, price := none, quantity := none }).name.isSome = true
  · simp only [hb, if_true, Option.isSome_some, true_iff]
    exact h.mp hb
  · have hb2 : ((li.lineItemExpenseFields.getD []).foldl processLineItemField
        { name := none, price := none, quantity := none }).name.isSome = false := by
      simpa using hb
    simp only [hb2, Bool.false_eq_true, if_false, Option.isSome_none]
    constructor
    · intro hcon
      exact absurd hcon (by simp)
    · intro hex
      exact absurd (h.mpr hex) hb

lemma itemLine_length (it : ItemDict) :
    (itemLine it).length = 16 + (displayName it).length
      + (displayPrice it).length + (displayQuantity it).length := by
  simp [itemLine, String.length_append]
  have h1 : ("<li>" : String).length = 4 := rfl
  have h2 : (" - $" : String).length = 4 := rfl
  have h3 : (" x " : String).length = 3 := rfl
  have h4 : ("</li>" : String).length = 5 := rfl
  omega

lemma foldl_itemLine_prefix (l : List ItemDict) :
    ∀ s : String, ∃ t : String,
      l.foldl (fun acc it => acc ++ itemLine it) s = s ++ t := by
  induction l with
  | nil => intro s; exact ⟨"", (String.append_empty s).symm⟩
  | cons it rest ih =>
    intro s
    obtain ⟨t, ht⟩ := ih (s ++ itemLine it)
    exact ⟨itemLine it ++ t, by
      rw [List.foldl_cons, ht, String.append_assoc]⟩

lemma items_html_split (items : List ItemDict) (it : ItemDict)
    (h : it ∈ items) :
    ∃ a b : String, items_html items = a ++ itemLine it ++ b := by
  obtain ⟨l1, l2, rfl⟩ := List.append_of_mem h
  obtain ⟨t, ht⟩ :=
    foldl_itemLine_prefix l2 (l1.foldl (fun acc i => acc ++ itemLine i) "" ++ itemLine it)
  have hfold : (l1 ++ it :: l2).foldl (fun acc i => acc ++ itemLine i) "" =
      (l1.foldl (fun acc i => acc ++ itemLine i) "" ++ itemLine it) ++ t := by
    rw [List.foldl_append, List.foldl_cons, ht]
  have hne : (l1 ++ it :: l2).foldl (fun acc i => acc ++ itemLine i) "" ≠ "" := by
    intro hcon
    rw [hfold] at hcon
    have hlen := congrArg String.length hcon
    rw [String.length_append, String.length_append] at hlen
    have hil := itemLine_length it
    have h0 : ("" : String).length = 0 := rfl
    omega
  refine ⟨l1.foldl (fun acc i => acc ++ itemLine i) "", t, ?_⟩
  rw [items_html]
  simp only [hne, if_false]
  rw [hfold]

lemma items_html_nil : items_html [] = "<li>No items detected</li>" := rfl

/-- Convenience constructor for a fully populated expense field. -/
def mkField (t v : String) : ExpenseField :=
  { typ := some { text := some t }, valueDetection := some { text := some v } }

/-- A summary field typed TOTAL whose ValueDetection is absent. -/
def fieldTotalNoValue : ExpenseField :=
  { typ := some { text := some "TOTAL" }, valueDetection := none }

/-- A response whose only summary field is a TOTAL with no detected text. -/
def respTotalNoValue : TextractResponse :=
  { expenseDocuments :=
      some [{ summaryFields := some [fieldTotalNoValue], lineItemGroups := none }] }

/-- C1 counterexample: a response whose only summary field has type label
TOTAL but no ValueDetection makes the extracted total the empty string, so
the classified fields are not always nonempty. -/
theorem c1_counterexample :
    (process_receipt_with_textract "rid-1" "2026-10-12" "bkt" "obj"
      respTotalNoValue).total = "" := rfl

/-- C1 (amended): the extracted record always carries date, vendor and total
keys, and they are nonempty provided the default date string is nonempty and
every summary field of the first expense document whose type label is one of
the three recognized labels has nonempty detected text; fields with other
labels, later documents, and empty lists are unconstrained, but a recognized
summary field with empty or missing detected text can overwrite the
classified fields with the empty string. -/
theorem c1_fields_present_amended (rid today bucket key : String)
    (resp : TextractResponse) (htoday : today ≠ "")
    (hvals : ∀ doc, (resp.expenseDocuments.getD []).head? = some doc →
      ∀ f ∈ doc.summaryFields.getD [],
        fieldTypeText f = "TOTAL" ∨ fieldTypeText f = "INVOICE_RECEIPT_DATE" ∨
          fieldTypeText f = "VENDOR_NAME" → fieldValueText f ≠ "") :
    (process_receipt_with_textract rid today bucket key resp).date ≠ "" ∧
    (process_receipt_with_textract rid today bucket key resp).vendor ≠ "" ∧
    (process_receipt_with_textract rid today bucket key resp).total ≠ "" := by
  rcases hdocs : resp.expenseDocuments with _ | docs
  · simp only [process_receipt_with_textract, hdocs, initialReceiptData]
    exact ⟨htoday, by decide, by decide⟩
  · cases docs with
    | nil =>
      simp only [process_receipt_with_textract, hdocs, initialReceiptData]
      exact ⟨htoday, by decide, by decide⟩
    | cons doc rest =>
      have hproc : process_receipt_with_textract rid today bucket key resp =
          applyLineItems
            (applySummary (initialReceiptData rid today bucket key) doc) doc := by
        simp [process_receipt_with_textract, hdocs]
      obtain ⟨hT, hD, hV, _⟩ := applyLineItems_preserves
        (applySummary (initialReceiptData rid today bucket key) doc) doc
      have hmdoc : (resp.expenseDocuments.getD []).head? = some doc := by
        rw [hdocs]; rfl
      rcases hsf : doc.summaryFields with _ | fs
      · have hid : applySummary (initialReceiptData rid today bucket key) doc =
            initialReceiptData rid today bucket key := by
          simp [applySummary, hsf]
        rw [hproc]
        rw [hid] at hT hD hV ⊢
        rw [hT, hD, hV]
        exact ⟨htoday, (by decide : ("Unknown" : String) ≠ ""),
          (by decide : ("0.00" : String) ≠ "")⟩
      · have happ := applySummary_summary
          (initialReceiptData rid today bucket key) doc fs hsf
        have hfs : ∀ f ∈ fs,
            fieldTypeText f = "TOTAL" ∨ fieldTypeText f = "INVOICE_RECEIPT_DATE" ∨
              fieldTypeText f = "VENDOR_NAME" → fieldValueText f ≠ "" := by
          intro f hf hl
          exact hvals doc hmdoc f (by rw [hsf]; simpa using hf) hl
        rw [hproc]
        refine ⟨?_, ?_, ?_⟩
        · rw [hD, happ, foldl_summary_date]
          rcases hl : (fs.filter (hasType "INVOICE_RECEIPT_DATE")).getLast? with _ | f
          · exact htoday
          · obtain ⟨hmem, hlab⟩ := List.mem_filter.mp (mem_of_getLast_eq_some hl)
            exact hfs f hmem (Or.inr (Or.inl (by simpa [hasType] using hlab)))
        · rw [hV, happ, foldl_summary_vendor]
          rcases hl : (fs.filter (hasType "VENDOR_NAME")).getLast? with _ | f
          · exact (by decide : ("Unknown" : String) ≠ "")
          · obtain ⟨hmem, hlab⟩ := List.mem_filter.mp (mem_of_getLast_eq_some hl)
            exact hfs f hmem (Or.inr (Or.inr (by simpa [hasType] using hlab)))
        · rw [hT, happ, foldl_summary_total]
          rcases hl : (fs.filter (hasType "TOTAL")).getLast? with _ | f
          · exact (by decide : ("0.00" : String) ≠ "")
          · obtain ⟨hmem, hlab⟩ := List.mem_filter.mp (mem_of_getLast_eq_some hl)
            exact hfs f hmem (Or.inl (by simpa [hasType] using hlab))

/-- Document used by the amended C1 witness: an unrecognized label with
empty detected text next to a nonempty TOTAL field. -/
def docMixedLabels : ExpenseDocument :=
  { summaryFields := some [mkField "AMOUNT_PAID" "", mkField "TOTAL" "5.00"]
    lineItemGroups := none }

/-- Response used by the amended C1 witness. -/
def respMixedLabels : TextractResponse :=
  { expenseDocuments := some [docMixedLabels] }

/-- Witness for the amended C1: an empty-text field with an unrecognized
label does not block the conclusion, since only the three recognized labels
are constrained; the nonempty TOTAL field keeps the total nonempty. -/
theorem c1_fields_present_amended_witness :
    (process_receipt_with_textract "rid-1" "2026-10-12" "bkt" "obj"
      respMixedLabels).date ≠ "" ∧
    (process_receipt_with_textract "rid-1" "2026-10-12" "bkt" "obj"
      respMixedLabels).vendor ≠ "" ∧
    (process_receipt_with_textract "rid-1" "2026-10-12" "bkt" "obj"
      respMixedLabels).total ≠ "" :=
  c1_fields_present_amended "rid-1" "2026-10-12" "bkt" "obj"
    respMixedLabels (by decide)
    (by
      intro doc hd
      have hdoc : doc = docMixedLabels := by
        simpa [respMixedLabels] using hd.symm
      subst hdoc
      decide)

/-- C2: on the summary fields of the first expense document, the last field
of a given recognized type label wins (stated for TOTAL with at least two
occurrences, and for the date and vendor labels via the last matching field),
and a field with an unrecognized label leaves the receipt unchanged. -/
theorem c2_last_occurrence_wins (rid today bucket key : String)
    (doc : ExpenseDocument) (rest : List ExpenseDocument)
    (fs : List ExpenseField) (hsf : doc.summaryFields = some fs) :
    (2 ≤ (fs.filter (hasType "TOTAL")).length →
      ∃ f, (fs.filter (hasType "TOTAL")).getLast? = some f ∧
        (process_receipt_with_textract rid today bucket key
          { expenseDocuments := some (doc :: rest) }).total = fieldValueText f) ∧
    (∀ f, (fs.filter (hasType "INVOICE_RECEIPT_DATE")).getLast? = some f →
      (process_receipt_with_textract rid today bucket key
        { expenseDocuments := some (doc :: rest) }).date = fieldValueText f) ∧
    (∀ f, (fs.filter (hasType "VENDOR_NAME")).getLast? = some f →
      (process_receipt_with_textract rid today bucket key
        { expenseDocuments := some (doc :: rest) }).vendor = fieldValueText f) ∧
    (∀ (r : ReceiptData) (f : ExpenseField), fieldTypeText f ≠ "TOTAL" →
      fieldTypeText f ≠ "INVOICE_RECEIPT_DATE" →
      fieldTypeText f ≠ "VENDOR_NAME" → processSummaryField r f = r) := by
  have hproc : process_receipt_with_textract rid today bucket key
      { expenseDocuments := some (doc :: rest) } =
      applyLineItems
        (applySummary (initialReceiptData rid today bucket key) doc) doc := rfl
  have happ := applySummary_summary
    (initialReceiptData rid today bucket key) doc fs hsf
  obtain ⟨hT, hD, hV, _⟩ := applyLineItems_preserves
    (applySummary (initialReceiptData rid today bucket key) doc) doc
  refine ⟨?_, ?_, ?_, ?_⟩
  · intro h2
    have hne : fs.filter (hasType "TOTAL") ≠ [] := by
      intro hcon; rw [hcon] at h2; simp at h2
    obtain ⟨f, hf⟩ := Option.isSome_iff_exists.mp (List.getLast?_isSome.mpr hne)
    refine ⟨f, hf, ?_⟩
    rw [hproc, hT, happ, foldl_summary_total, hf]
  · intro f hf
    rw [hproc, hD, happ, foldl_summary_date, hf]
  · intro f hf
    rw [hproc, hV, happ, foldl_summary_vendor, hf]
  · intro r f h1 h2 h3
    unfold processSummaryField
    simp [h1, h2, h3]

/-- Document used by the C2 witness: two TOTAL fields. -/
def docTwoTotals : ExpenseDocument :=
  { summaryFields := some [mkField "TOTAL" "1.00", mkField "TOTAL" "2.00"]
    lineItemGroups := none }

/-- Witness for C2: with two TOTAL fields the last one decides the total. -/
theorem c2_last_occurrence_wins_witness :
    ∃ f, (([mkField "TOTAL" "1.00", mkField "TOTAL" "2.00"].filter
        (hasType "TOTAL")).getLast? = some f ∧
      (process_receipt_with_textract "rid-1" "2026-10-12" "bkt" "obj"
        { expenseDocuments := some [docTwoTotals] }).total = fieldValueText f) :=
  (c2_last_occurrence_wins "rid-1" "2026-10-12" "bkt" "obj" docTwoTotals []
    [mkField "TOTAL" "1.00", mkField "TOTAL" "2.00"] rfl).1 (by decide)

/-- C3: a line item yields an ItemRecord exactly when one of its fields has
type label ITEM, and a list of line items none of which has an ITEM field
contributes no records at all. -/
theorem c3_item_emitted_iff (li : LineItem) :
    ((processLineItem li).isSome = true ↔
      ∃ f ∈ li.lineItemExpenseFields.getD [], fieldTypeText f = "ITEM") ∧
    (∀ lis : List LineItem,
      (∀ li2 ∈ lis, ∀ f ∈ li2.lineItemExpenseFields.getD [],
        fieldTypeText f ≠ "ITEM") →
      lis.filterMap processLineItem = []) := by
  refine ⟨processLineItem_isSome_iff li, ?_⟩
  intro lis h
  rw [List.filterMap_eq_nil_iff]
  intro li2 hm
  have hns : ¬ (processLineItem li2).isSome = true := by
    rw [processLineItem_isSome_iff]
    rintro ⟨f, hf, ht⟩
    exact h li2 hm f hf ht
  cases hc : processLineItem li2 with
  | none => rfl
  | some v => rw [hc] at hns; simp at hns

/-- Line item with an ITEM field, used by the C3 witness. -/
def liWithItem : LineItem :=
  { lineItemExpenseFields := some [mkField "ITEM" "Coffee", mkField "PRICE" "3.00"] }

/-- Line item with only a PRICE field, used by the C3 witness. -/
def liPriceOnly : LineItem :=
  { lineItemExpenseFields := some [mkField "PRICE" "3.00"] }

/-- Witness for C3: an ITEM field forces a record, a PRICE-only line item is
dropped. -/
theorem c3_item_emitted_iff_witness :
    (processLineItem liWithItem).isSome = true ∧
    [liPriceOnly].filterMap processLineItem = [] := by
  constructor
  · exact (c3_item_emitted_iff liWithItem).1.mpr
      ⟨mkField "ITEM" "Coffee", by simp [liWithItem], rfl⟩
  · exact (c3_item_emitted_iff liWithItem).2 [liPriceOnly] (by decide)

/-- C4: with no expense document (key absent, or present with an empty and
hence falsy list) the record keeps all its defaults: vendor Unknown, total
0.00, the injected current date, and no items. -/
theorem c4_no_document_defaults (rid today bucket key : String)
    (resp : TextractResponse)
    (h : resp.expenseDocuments = none ∨ resp.expenseDocuments = some []) :
    (process_receipt_with_textract rid today bucket key resp).vendor = "Unknown" ∧
    (process_receipt_with_textract rid today bucket key resp).total = "0.00" ∧
    (process_receipt_with_textract rid today bucket key resp).date = today ∧
    (process_receipt_with_textract rid today bucket key resp).items = [] := by
  rcases h with h | h <;>
    simp [process_receipt_with_textract, h, initialReceiptData]

/-- Witness for C4 at a concrete documentless response. -/
theorem c4_no_document_defaults_witness :
    (process_receipt_with_textract "rid-1" "2026-10-12" "bkt" "obj"
      { expenseDocuments := none }).vendor = "Unknown" ∧
    (process_receipt_with_textract "rid-1" "2026-10-12" "bkt" "obj"
      { expenseDocuments := none }).total = "0.00" ∧
    (process_receipt_with_textract "rid-1" "2026-10-12" "bkt" "obj"
      { expenseDocuments := none }).date = "2026-10-12" ∧
    (process_receipt_with_textract "rid-1" "2026-10-12" "bkt" "obj"
      { expenseDocuments := none }).items = [] :=
  c4_no_document_defaults "rid-1" "2026-10-12" "bkt" "obj"
    { expenseDocuments := none } (Or.inl rfl)

/-- C5: the extraction logic is total: the variant that models the partial
subscripting operations of the source explicitly never returns none, and it
returns exactly the record of the total function, which is fully populated
by construction. -/
theorem c5_extraction_never_fails (rid today bucket key : String)
    (resp : TextractResponse) :
    process_receipt_checked rid today bucket key resp =
      some (process_receipt_with_textract rid today bucket key resp) := by
  rcases h : resp.expenseDocuments with _ | docs
  · simp [process_receipt_checked, process_receipt_with_textract, h]
  · cases docs with
    | nil => simp [process_receipt_checked, process_receipt_with_textract, h]
    | cons d ds =>
      simp [process_receipt_checked, process_receipt_with_textract, h]

/-- C6: a raised exception from the Textract call or from the DynamoDB write
reaches the top-level handler, which reports statusCode 500, and the
notification step is never reached. -/
theorem c6_upstream_failure_aborts (c : Collaborators) :
    (∀ e, c.analyzeExpense = Except.error e →
      lambda_handler c = { statusCode := 500, emailAttempted := false }) ∧
    (∀ e, c.putItem = Except.error e →
      lambda_handler c = { statusCode := 500, emailAttempted := false }) := by
  constructor
  · intro e he
    cases hh : c.headObject with
    | error a => simp [lambda_handler, hh]
    | ok a => simp [lambda_handler, hh, he]
  · intro e he
    cases hh : c.headObject with
    | error a => simp [lambda_handler, hh]
    | ok a =>
      cases ha : c.analyzeExpense with
      | error b => simp [lambda_handler, hh, ha]
      | ok b => simp [lambda_handler, hh, ha, he]

/-- Collaborators whose DynamoDB write raises, for the C6 witness. -/
def collabPutFails : Collaborators :=
  { headObject := Except.ok ()
    analyzeExpense := Except.ok { expenseDocuments := none }
    putItem := Except.error "ProvisionedThroughputExceeded"
    sendEmail := Except.ok () }

/-- Witness for C6: a failing write yields 500 with no notification. -/
theorem c6_upstream_failure_aborts_witness :
    lambda_handler collabPutFails = { statusCode := 500, emailAttempted := false } :=
  (c6_upstream_failure_aborts collabPutFails).2
    "ProvisionedThroughputExceeded" rfl

/-- C7: when the object check, the Textract call and the DynamoDB write all
succeed and the SES send raises, the exception is swallowed inside the
notification step (which returns instead of propagating) and the handler
still reports statusCode 200. -/
theorem c7_notification_failure_swallowed (c : Collaborators) (e : String)
    (hh : c.headObject = Except.ok ())
    (ha : ∃ resp, c.analyzeExpense = Except.ok resp)
    (hp : c.putItem = Except.ok ())
    (he : c.sendEmail = Except.error e) :
    lambda_handler c = { statusCode := 200, emailAttempted := true } ∧
    send_email_notification c = false := by
  obtain ⟨resp, ha⟩ := ha
  constructor
  · simp [lambda_handler, hh, ha, hp]
  · simp [send_email_notification, he]

/-- Collaborators whose SES send raises, for the C7 witness. -/
def collabEmailFails : Collaborators :=
  { headObject := Except.ok ()
    analyzeExpense := Except.ok { expenseDocuments := none }
    putItem := Except.ok ()
    sendEmail := Except.error "MessageRejected" }

/-- Witness for C7: a failing send still results in a 200 run. -/
theorem c7_notification_failure_swallowed_witness :
    lambda_handler collabEmailFails = { statusCode := 200, emailAttempted := true } ∧
    send_email_notification collabEmailFails = false :=
  c7_notification_failure_swallowed collabEmailFails "MessageRejected" rfl
    ⟨{ expenseDocuments := none }, rfl⟩ rfl rfl

/-- C8: an empty items list renders exactly the placeholder bullet (so the
body contains the placeholder and no per-item bullet); every item of a
non-empty list has its bullet in the body; and an item missing price and
quantity is rendered with the display defaults N/A and 1. -/
theorem c8_notification_rendering (r : ReceiptData) :
    (r.items = [] →
      items_html r.items = "<li>No items detected</li>" ∧
      ∃ a b, html_body r = a ++ "<li>No items detected</li>" ++ b) ∧
    (∀ it ∈ r.items, ∃ a b, html_body r = a ++ itemLine it ++ b) ∧
    (∀ it : ItemDict, it.price = none → it.quantity = none →
      itemLine it = "<li>" ++ displayName it ++ " - $N/A x 1</li>") := by
  refine ⟨?_, ?_, ?_⟩
  · intro h
    refine ⟨by rw [h, items_html_nil], bodyHeader r, bodyFooter, ?_⟩
    rw [html_body, h, items_html_nil]
  · intro it hm
    obtain ⟨a, b, hab⟩ := items_html_split r.items it hm
    refine ⟨bodyHeader r ++ a, b ++ bodyFooter, ?_⟩
    rw [html_body, hab]
    simp [String.append_assoc]
  · intro it hp hq
    rw [itemLine, displayPrice, displayQuantity, hp, hq]
    simp only [Option.getD_none, String.append_assoc]
    congr 2

/-- Record with no items, used by the C8 witness. -/
def receiptNoItems : ReceiptData :=
  { receipt_id := "rid-1", date := "2026-10-12", vendor := "Unknown"
    total := "0.00", items := [], s3_path := "s3://bkt/obj" }

/-- Witness for C8: the placeholder renders for an empty items list, and a
priceless, quantityless item renders with the display defaults. -/
theorem c8_notification_rendering_witness :
    items_html receiptNoItems.items = "<li>No items detected</li>" ∧
    itemLine { name := some "Coffee", price := none, quantity := none } =
      "<li>Coffee - $N/A x 1</li>" := by
  constructor
  · exact ((c8_notification_rendering receiptNoItems).1 rfl).1
  · rw [(c8_notification_rendering receiptNoItems).2.2
      { name := some "Coffee", price := none, quantity := none } rfl rfl]
    decide

/-- C9: every item written by the persistence step has all three keys
present; a missing price becomes the synthetic default 0.00 before the
write — different both from the item as assembled and from the display
default N/A used in the email — and a missing quantity becomes 1; the
written record carries the converted items, not the assembler output. -/
theorem c9_db_item_defaults (it : ItemDict) :
    ((toDbItem it).name.isSome = true ∧ (toDbItem it).price.isSome = true ∧
      (toDbItem it).quantity.isSome = true) ∧
    (it.price = none →
      (toDbItem it).price = some "0.00" ∧ displayPrice it = "N/A" ∧
      (toDbItem it).price ≠ some (displayPrice it) ∧ toDbItem it ≠ it) ∧
    (it.quantity = none →
      (toDbItem it).quantity = some "1" ∧ (toDbItem it).quantity ≠ it.quantity) ∧
    (∀ (r : ReceiptData) (ts : String),
      (db_item_of r ts).items = items_for_db r.items) := by
  refine ⟨⟨rfl, rfl, rfl⟩, ?_, ?_, ?_⟩
  · intro hp
    refine ⟨by simp [toDbItem, hp], by simp [displayPrice, hp], ?_, ?_⟩
    · simp [toDbItem, displayPrice, hp]
    · intro hcon
      have := congrArg ItemDict.price hcon
      simp [toDbItem, hp] at this
  · intro hq
    exact ⟨by simp [toDbItem, hq], by simp [toDbItem, hq]⟩
  · intro r ts
    rfl

/-- Witness for C9 at an item carrying only a name. -/
theorem c9_db_item_defaults_witness :
    (toDbItem { name := some "Coffee", price := none, quantity := none }).price
        = some "0.00" ∧
    displayPrice { name := some "Coffee", price := none, quantity := none }
        = "N/A" ∧
    (toDbItem { name := some "Coffee", price := none, quantity := none }).quantity
        = some "1" := by
  have h := c9_db_item_defaults
    { name := some "Coffee", price := none, quantity := none }
  exact ⟨(h.2.1 rfl).1, (h.2.1 rfl).2.1, (h.2.2.1 rfl).1⟩

/-- C10: only the first expense document contributes to the record; any
trailing documents are ignored entirely. -/
theorem c10_first_document_only (rid today bucket key : String)
    (d : ExpenseDocument) (ds : List ExpenseDocument) :
    process_receipt_with_textract rid today bucket key
        { expenseDocuments := some (d :: ds) } =
      process_receipt_with_textract rid today bucket key
        { expenseDocuments := some [d] } := rfl

end ReceiptPipeline
